import Mathlib

set_option maxRecDepth 8192

/-!
Shallow embedding of the sableye repository (a journal question-answering
assistant) for checking its natural-language specification.

Conventions used throughout:
* Python exceptions are modelled by `Except String`, the error carrying
  `str(e)`.
* The process environment is a function `String → Option String`
  (`os.getenv`); Python truthiness of the walrus test `if v := os.getenv(k)`
  means the value must be present and non-empty.
* Timestamps are integers (seconds); `datetime.fromtimestamp`,
  `isoformat` / `fromisoformat` form a round trip that preserves order, so
  in the reader embedding the stored `modified_time` is kept as the integer
  timestamp itself.
* Third-party calls (FAISS similarity search, the reader seen from the
  tools, the agent executor) are oracle functions supplied as parameters;
  each embedded operation also returns the list of calls it made, so that
  "which query was forwarded" and "no retries" are provable.
-/

/-! ### Configuration (src/config.py) -/

/-- Mirror of `ModelConfig` (config.py lines 7-15). `temperature` is a
float in Python; no arithmetic is performed on it anywhere in the
repository, so it is carried as a rational. -/
structure ModelConfig where
  type : String := "openai"
  name : String := "gpt-4"
  apiKey : Option String := none
  baseUrl : String := "http://localhost:11434"
  temperature : Rat := 7/10
  maxTokens : Int := 2000
deriving DecidableEq, Repr

/-- Mirror of `VaultConfig` (config.py lines 17-23). -/
structure VaultConfig where
  path : String := ""
  loadDays : Option Int := some 90
  chunkSize : Int := 1000
  chunkOverlap : Int := 200
deriving DecidableEq, Repr

/-- Mirror of `AgentConfig` (config.py lines 25-30). -/
structure AgentConfig where
  verbose : Bool := false
  maxIterations : Int := 5
  searchResultsLimit : Int := 5
deriving DecidableEq, Repr

/-- The three sections held by the `Config` manager (config.py lines 41-43). -/
structure Config where
  model : ModelConfig := {}
  vault : VaultConfig := {}
  agent : AgentConfig := {}
deriving DecidableEq, Repr

/-- The process environment as seen through `os.getenv`. -/
def Env : Type := String → Option String

/-- `if v := os.getenv(k)`: the branch is taken exactly when the variable is
present with a non-empty value. -/
def envTruthy (env : Env) (k : String) : Option String :=
  match env k with
  | some v => if v = "" then none else some v
  | none => none

/-- Mirror of `Config._load_from_env` (config.py lines 74-86): four
environment variables are consulted, in this order. -/
def loadFromEnv (env : Env) (c : Config) : Config :=
  let c1 := match envTruthy env "OPENAI_API_KEY" with
    | some v => { c with model := { c.model with apiKey := some v } }
    | none => c
  let c2 := match envTruthy env "OBSIDIAN_VAULT_PATH" with
    | some v => { c1 with vault := { c1.vault with path := v } }
    | none => c1
  let c3 := match envTruthy env "MODEL_TYPE" with
    | some v => { c2 with model := { c2.model with type := v } }
    | none => c2
  let c4 := match envTruthy env "MODEL_NAME" with
    | some v => { c3 with model := { c3.model with name := v } }
    | none => c3
  c4

/-- Python falsiness of an optional string (`not self.model.api_key`):
either absent or empty. -/
def pyFalsy : Option String → Bool
  | none => true
  | some s => s = ""

/-- The filesystem operations used by `Config.validate`:
`Path(p).expanduser().resolve()` rendered back to a string, and
`Path.exists`. -/
structure FS where
  normalize : String → String
  pathExists : String → Bool

/-- Mirror of `Config.validate` (config.py lines 88-103). The Python method
mutates `self.vault.path` and then returns `True` or raises `ValueError`;
here it returns the updated configuration together with the returned
boolean, or the error message. -/
def validate (fs : FS) (c : Config) : Except String (Config × Bool) :=
  if c.vault.path = "" then
    Except.error "Vault path not configured"
  else
    let expandedPath := fs.normalize c.vault.path
    let c' := { c with vault := { c.vault with path := expandedPath } }
    if fs.pathExists expandedPath then
      if c'.model.type = "openai" && pyFalsy c'.model.apiKey then
        Except.error "OpenAI API key required for openai model type"
      else
        Except.ok (c', true)
    else
      Except.error ("Vault path does not exist: " ++ c'.vault.path)

/-! ### Python primitives used by the tools -/

/-- The whitespace characters `str.strip()` removes (ASCII range). -/
def isPySpace (c : Char) : Bool :=
  c = ' ' || c = '\t' || c = '\n' || c = '\x0d' || c = '\x0b' || c = '\x0c'

/-- `str.strip()` on the character list. -/
def pyStripChars (cs : List Char) : List Char :=
  ((cs.dropWhile isPySpace).reverse.dropWhile isPySpace).reverse

/-- `str.strip()`. -/
def pyStrip (s : String) : String :=
  String.mk (pyStripChars s.data)

/-- `str.lower()` on one character (ASCII range; the REPL commands are
ASCII). -/
def pyCharLower (c : Char) : Char :=
  if 'A' ≤ c && c ≤ 'Z' then Char.ofNat (c.toNat + 32) else c

/-- `str.lower()`. -/
def pyLower (s : String) : String :=
  String.mk (s.data.map pyCharLower)

/-- `s.startswith("/")`. -/
def startsWithSlash (s : String) : Bool :=
  match s.data with
  | c :: _ => c = '/'
  | [] => false

/-- `s[:n]` on a Python string. -/
def pyTakeStr (n : Nat) (s : String) : String :=
  String.mk (s.data.take n)

/-- Digit runs accepted by Python `int(...)` after the optional sign:
non-empty, decimal digits, with single underscores allowed only between
digits. -/
def pyDigitsOk : List Char → Bool
  | [] => false
  | c :: rest => c.isDigit && pyDigitsTail rest
where
  pyDigitsTail : List Char → Bool
  | [] => true
  | '_' :: c :: rest => c.isDigit && pyDigitsTail rest
  | ['_'] => false
  | c :: rest => c.isDigit && pyDigitsTail rest

/-- Numeric value of an accepted digit run (underscores ignored). -/
def pyDigitsVal (cs : List Char) : Int :=
  (cs.filter Char.isDigit).foldl (fun acc c => acc * 10 + (Int.ofNat (c.toNat - 48))) 0

/-- Model of the Python builtin `int(s)` for `str` input: surrounding
whitespace is stripped, an optional sign precedes the digits, and a
`ValueError` is `none`.  (Non-ASCII digits are not modelled.) -/
def pyInt (s : String) : Option Int :=
  match pyStripChars s.toList with
  | '+' :: rest => if pyDigitsOk rest then some (pyDigitsVal rest) else none
  | '-' :: rest => if pyDigitsOk rest then some (-(pyDigitsVal rest)) else none
  | cs => if pyDigitsOk cs then some (pyDigitsVal cs) else none

/-- `str.split()` with no separator: split on whitespace runs, no empty
fields. -/
def pySplit (s : String) : List String :=
  ((s.data.splitOnP isPySpace).map String.mk).filter fun t => t ≠ ""

/-- `l[-n:]` on a Python list. -/
def pyTakeLast (n : Nat) (l : List α) : List α :=
  l.drop (l.length - n)

/-- Python's `<=` on strings, on the character lists: lexicographic by
code point. -/
def pyCharsLe : List Char → List Char → Bool
  | [], _ => true
  | _ :: _, [] => false
  | a :: as, b :: bs =>
    if a.toNat = b.toNat then pyCharsLe as bs
    else decide (a.toNat < b.toNat)

/-- Python's `<=` on strings. -/
def pyStrLe (s t : String) : Bool :=
  pyCharsLe s.data t.data

/-- Ordered insertion: `a` goes in front of the first element `b` with
`le a b`. -/
def pyInsert (le : α → α → Bool) (a : α) : List α → List α
  | [] => [a]
  | b :: bs => if le a b then a :: b :: bs else b :: pyInsert le a bs

/-- Python's `list.sort` is a stable sort, and every stable sort over the
same total preorder produces the same list; it is modelled here by stable
insertion sort, which is structurally recursive and therefore executable
inside proofs.  `le a b` means "a may come before b"; on a tie both
orders are allowed and the original order is kept. -/
def pySort (le : α → α → Bool) : List α → List α
  | [] => []
  | b :: bs => pyInsert le b (pySort le bs)

/-! ### The Obsidian reader (src/reader.py) -/

/-- A LangChain `Document` as produced by `ObsidianReader.read_all_notes`
(reader.py lines 44-56).  The `modified_time` / `created_time` metadata is
stored via `datetime.fromtimestamp(...).isoformat()`; since
`fromisoformat` inverts `isoformat` exactly, the timestamps are kept here
as the underlying integers. -/
structure RDoc where
  pageContent : String
  source : String
  fileName : String
  modifiedTime : Int
  createdTime : Int
deriving DecidableEq, Repr

/-- One `*.md` file found by `rglob`: its path relative to the vault, its
base name, the outcome of `open(...).read()` (reading may raise), and its
stat timestamps. -/
structure VaultFile where
  relPath : String
  name : String
  readResult : Except String String
  mtime : Int
  ctime : Int

/-- The vault: the markdown files in the order `rglob("*.md")` lists them. -/
structure Vault where
  files : List VaultFile

/-- Seconds per day, the unit used for `timedelta(days=...)`. -/
def secondsPerDay : Int := 86400

/-- Mirror of `ObsidianReader.read_all_notes` (reader.py lines 28-62): each
file is read inside `try/except` (a failing read is logged and skipped),
files whose content is empty after `strip()` are skipped, and the rest
become documents in file order. -/
def readAllNotes (v : Vault) : List RDoc :=
  v.files.filterMap fun f =>
    match f.readResult with
    | Except.error _ => none
    | Except.ok content =>
      if pyStrip content = "" then none
      else some { pageContent := content, source := f.relPath, fileName := f.name,
                  modifiedTime := f.mtime, createdTime := f.ctime }

/-- Mirror of `ObsidianReader.read_recent_notes` (reader.py lines 64-75):
`cutoff_date = datetime.now() - timedelta(days=days)` and the comparison is
strict (`> cutoff_date`).  `now` is the timestamp `datetime.now()` returns. -/
def readRecentNotes (v : Vault) (now : Int) (days : Int) : List RDoc :=
  let cutoffDate := now - days * secondsPerDay
  (readAllNotes v).filter fun doc => cutoffDate < doc.modifiedTime

/-! ### The agent tools (src/tools.py)

The tools see documents coming back from the vector store or the reader;
they only access `page_content` and the metadata keys `file_name` and
`modified_time` through `metadata.get(key, default)`, so a document is
modelled by those three pieces, the metadata entries optional exactly as
`dict.get` treats them. -/

/-- A document as consumed by `AgentTools`. -/
structure Doc where
  pageContent : String
  fileName : Option String := none
  modifiedTime : Option String := none
deriving DecidableEq, Repr

/-- `self.vectorstore.similarity_search(query, k=...)`: an oracle mapping
the query and `k` to the returned documents, or to the raised exception. -/
def VSOracle : Type := String → Int → Except String (List Doc)

/-- `self.reader.read_recent_notes(n_days)` as the tools see it. -/
def ReaderOracle : Type := Int → Except String (List Doc)

/-- `AgentTools` construction state (tools.py lines 12-15). -/
structure AgentTools where
  searchLimit : Int

/-- `SableyeAgent.initialize` builds the tools with
`search_limit=self.config.agent.search_results_limit` (agent.py lines
100-104). -/
def mkTools (cfg : Config) : AgentTools :=
  { searchLimit := cfg.agent.searchResultsLimit }

/-- One rendered entry of `_search_notes` (tools.py lines 66-73),
`enumerate` starting at 1. -/
def searchEntry (i : Nat) (d : Doc) : String :=
  "--- Entry " ++ toString i ++ ": " ++ d.fileName.getD "Unknown"
    ++ " (Modified: " ++ pyTakeStr 10 (d.modifiedTime.getD "Unknown") ++ ") ---\n"
    ++ d.pageContent ++ "\n"

/-- Mirror of `AgentTools._search_notes` (tools.py lines 57-79).  The second
component records the `similarity_search` calls made (query, k). -/
def searchNotes (t : AgentTools) (vs : VSOracle) (query : String) :
    String × List (String × Int) :=
  let calls := [(query, t.searchLimit)]
  match vs query t.searchLimit with
  | Except.error e => ("Error searching notes: " ++ e, calls)
  | Except.ok docs =>
    if docs = [] then
      ("No relevant entries found for this query.", calls)
    else
      (String.intercalate "\n" (docs.enum.map fun p => searchEntry (p.1 + 1) p.2), calls)

/-- The sort key of `_get_recent_entries`:
`x.metadata.get('modified_time', '')`. -/
def docKey (d : Doc) : String :=
  d.modifiedTime.getD ""

/-- `recent_docs.sort(key=..., reverse=True)`: a stable descending sort by
`docKey` (with `reverse=True` ties keep their original order). -/
def pySortDesc (docs : List Doc) : List Doc :=
  pySort (fun a b => pyStrLe (docKey b) (docKey a)) docs

/-- One rendered entry of `_get_recent_entries` (tools.py lines 101-109):
content cut at 500 characters, with an ellipsis exactly when the original
is longer. -/
def recentEntry (d : Doc) : String :=
  "--- " ++ d.fileName.getD "Unknown" ++ " (Modified: "
    ++ pyTakeStr 10 (d.modifiedTime.getD "Unknown") ++ ") ---\n"
    ++ pyTakeStr 500 d.pageContent
    ++ (if 500 < d.pageContent.length then "..." else "") ++ "\n"

/-- Mirror of `AgentTools._get_recent_entries` (tools.py lines 81-115): the
`int(days)` parse falls back to 7 on `ValueError`, then the single
`read_recent_notes` call is wrapped in `try/except`.  The second component
records the reader calls made. -/
def getRecentEntries (rd : ReaderOracle) (days : String) : String × List Int :=
  let nDays : Int := (pyInt days).getD 7
  let calls := [nDays]
  match rd nDays with
  | Except.error e => ("Error retrieving recent entries: " ++ e, calls)
  | Except.ok recentDocs =>
    if recentDocs = [] then
      ("No entries found in the last " ++ toString nDays ++ " days.", calls)
    else
      let sorted := pySortDesc recentDocs
      (String.intercalate "\n" ((sorted.take 10).map recentEntry), calls)

/-- The keyword list of `_analyze_mood_patterns` (tools.py lines 121-125). -/
def moodKeywords : List String :=
  ["mood", "emotion", "feeling", "mental state",
   "happiness", "sadness", "anxiety", "stress",
   "joy", "depression", "calm", "peaceful"]

/-- `mood_query = " ".join(mood_keywords)`. -/
def moodQuery : String := String.intercalate " " moodKeywords

/-- One rendered entry of `_analyze_mood_patterns` / `_find_goals`. -/
def plainEntry (d : Doc) : String :=
  "--- " ++ d.fileName.getD "Unknown" ++ " ---\n" ++ d.pageContent ++ "\n"

/-- Mirror of `AgentTools._analyze_mood_patterns` (tools.py lines 117-142):
one `similarity_search(mood_query, k=10)` call inside `try/except`. -/
def analyzeMoodPatterns (vs : VSOracle) (_query : String) : String × List (String × Int) :=
  let calls := [(moodQuery, (10 : Int))]
  match vs moodQuery 10 with
  | Except.error e => ("Error analyzing mood patterns: " ++ e, calls)
  | Except.ok docs =>
    if docs = [] then
      ("No mood-related entries found.", calls)
    else
      ("Mood-related entries:\n\n" ++ String.intercalate "\n" (docs.map plainEntry), calls)

/-- The keyword list of `_find_goals` (tools.py lines 147-151). -/
def goalKeywords : List String :=
  ["goal", "objective", "want to", "plan to",
   "aspire", "achieve", "target", "aim",
   "working on", "working towards"]

/-- `goal_query = " ".join(goal_keywords)`. -/
def goalQuery : String := String.intercalate " " goalKeywords

/-- Mirror of `AgentTools._find_goals` (tools.py lines 144-168): one
`similarity_search(goal_query, k=8)` call inside `try/except`. -/
def findGoals (vs : VSOracle) (_query : String) : String × List (String × Int) :=
  let calls := [(goalQuery, (8 : Int))]
  match vs goalQuery 8 with
  | Except.error e => ("Error finding goals: " ++ e, calls)
  | Except.ok docs =>
    if docs = [] then
      ("No goals found in the notes.", calls)
    else
      ("Goal-related entries:\n\n" ++ String.intercalate "\n" (docs.map plainEntry), calls)

/-! ### The agent chat loop (src/agent.py) -/

/-- A `chat_history` entry, the dict `{"role": ..., "content": ...}`. -/
structure ChatMsg where
  role : String
  content : String
deriving DecidableEq, Repr

/-- The value `self.agent.invoke({"messages": messages})` produces:
`response["messages"]` as the list of the messages' `.content` strings,
plus `str(response)` for the fallback branch taken when the list is
missing or empty. -/
structure AgentResponse where
  messages : List String
  reprStr : String

/-- The agent executor as an oracle over the message window passed to
`invoke`. -/
def Invoke : Type := List ChatMsg → Except String AgentResponse

/-- Result of one `SableyeAgent.chat` turn: the chat history afterwards,
the returned string, and the `invoke` calls made. -/
structure ChatResult where
  history : List ChatMsg
  output : String
  calls : List (List ChatMsg)

/-- Mirror of `SableyeAgent.chat` (agent.py lines 124-160): the user
message is appended to the history, the last 10 history entries are sent
to `invoke`, the response content is the last response message (or
`str(response)` when the message list is empty), and any exception is
caught and rendered — the user message stays appended because the append
ran before `invoke` raised. -/
def chat (inv : Invoke) (chatHistory : List ChatMsg) (message : String) : ChatResult :=
  let history1 := chatHistory ++ [{ role := "user", content := message }]
  let messages := pyTakeLast 10 history1
  match inv messages with
  | Except.error e =>
    { history := history1, output := "I encountered an error: " ++ e, calls := [messages] }
  | Except.ok resp =>
    let responseContent := resp.messages.getLastD resp.reprStr
    { history := history1 ++ [{ role := "assistant", content := responseContent }],
      output := responseContent, calls := [messages] }

/-! ### The CLI (cli.py) -/

/-- The subcommands registered on the click group by the three
`@cli.command()` decorators (cli.py lines 108, 232, 259). -/
def cliSubcommands : List String := ["chat", "validate", "ask"]

/-- What one iteration of the REPL loop does with the (already prompted)
input line. -/
inductive ReplAction where
  /-- Empty input after strip: `continue`. -/
  | skip : ReplAction
  /-- `/exit`, `/quit` or `/q`: `break` out of the loop. -/
  | exit : ReplAction
  /-- `/help`: `print_help()` then `continue`. -/
  | help : ReplAction
  /-- `/stats`: `print_stats(agent)` then `continue`. -/
  | stats : ReplAction
  /-- `/clear`: clear the console then `continue`. -/
  | clearScreen : ReplAction
  /-- `/reset`: `agent.clear_memory()` then `continue`. -/
  | reset : ReplAction
  /-- `/memory`: show `agent.get_memory_summary()` then `continue`. -/
  | memory : ReplAction
  /-- `/recent` with an unparseable day count: error message, `continue`. -/
  | invalidRecent : ReplAction
  /-- A slash-command none of the branches recognize. -/
  | unknown : String → ReplAction
  /-- The string handed to `agent.chat(...)`. -/
  | ask : String → ReplAction
deriving DecidableEq, Repr

/-- The question `/recent [days]` is rewritten into (cli.py line 200). -/
def recentQuery (d : Int) : String :=
  "Show me my journal entries from the last " ++ toString d ++ " days"

/-- Mirror of the command dispatch in the chat loop (cli.py lines 153-211):
the input is stripped, empty input is skipped, a leading `/` selects the
command by the first whitespace token of the lowercased input, and
`/recent [days]` is rewritten into a natural-language question that falls
through to `agent.chat`.  Anything not starting with `/` goes to the agent
verbatim. -/
def replDispatch (raw : String) : ReplAction :=
  let userInput := pyStrip raw
  if userInput = "" then ReplAction.skip
  else if startsWithSlash userInput then
    let command := (pySplit (pyLower userInput)).headD ""
    if command = "/exit" || command = "/quit" || command = "/q" then ReplAction.exit
    else if command = "/help" then ReplAction.help
    else if command = "/stats" then ReplAction.stats
    else if command = "/clear" then ReplAction.clearScreen
    else if command = "/reset" then ReplAction.reset
    else if command = "/memory" then ReplAction.memory
    else if command = "/recent" then
      let parts := pySplit userInput
      match parts.get? 1 with
      | none => ReplAction.ask (recentQuery 7)
      | some p =>
        match pyInt p with
        | some d => ReplAction.ask (recentQuery d)
        | none => ReplAction.invalidRecent
    else ReplAction.unknown command
  else ReplAction.ask userInput

/-! ### Concrete instances used by counterexamples and witnesses -/

/-- An empty environment. -/
def envNone : Env := fun _ => none

/-- An environment that only sets `MODEL_TYPE`. -/
def envModelType : Env := fun k => if k = "MODEL_TYPE" then some "ollama" else none

/-- Like `envModelType` but with an extra unrelated variable set. -/
def envModelTypeHome : Env := fun k =>
  if k = "MODEL_TYPE" then some "ollama"
  else if k = "HOME" then some "/root" else none

/-- A filesystem where every path exists and normalization prepends a
root. -/
def fsC : FS := { normalize := fun p => "/abs/" ++ p, pathExists := fun _ => true }

/-- A configuration with a relative vault path and an ollama model. -/
def cfgC : Config := { model := { type := "ollama" }, vault := { path := "notes" } }

/-- `cfgC` after `validate` has rewritten the vault path. -/
def cfgC2 : Config := { model := { type := "ollama" }, vault := { path := "/abs/notes" } }

/-- A concrete document with the older modification time. -/
def docAC : Doc :=
  { pageContent := "Old entry content", fileName := some "A.md",
    modifiedTime := some "2024-01-01T10:00:00" }

/-- A concrete document with the newer modification time. -/
def docBC : Doc :=
  { pageContent := "New entry", fileName := some "B.md",
    modifiedTime := some "2024-01-02T10:00:00" }

/-- A reader returning the two documents oldest-first. -/
def rdPairC : ReaderOracle := fun _ => Except.ok [docAC, docBC]

/-- A document whose content is 501 characters long. -/
def docLongC : Doc :=
  { pageContent := String.mk (List.replicate 501 'a'), fileName := some "long.md",
    modifiedTime := some "2024-01-01T00:00:00" }

/-- A reader returning only the long document. -/
def rdLongC : ReaderOracle := fun _ => Except.ok [docLongC]

/-- A vector store whose search always raises. -/
def vsErr : VSOracle := fun _ _ => Except.error "boom"

/-- A reader whose read always raises. -/
def rdErr : ReaderOracle := fun _ => Except.error "readfail"

/-- An agent executor whose invoke always raises. -/
def invErr : Invoke := fun _ => Except.error "invokefail"

/-- A single-file vault with non-blank content. -/
def vaultC : Vault :=
  { files := [{ relPath := "a.md", name := "a.md", readResult := Except.ok "hello",
                mtime := 100, ctime := 90 }] }

/-- The document `readAllNotes` produces from `vaultC`. -/
def rdocC : RDoc :=
  { pageContent := "hello", source := "a.md", fileName := "a.md",
    modifiedTime := 100, createdTime := 90 }

/-! ### Sorting lemmas -/

/-- Lexicographic comparison is transitive. -/
theorem pyCharsLe_trans : ∀ (xs ys zs : List Char),
    pyCharsLe xs ys = true → pyCharsLe ys zs = true → pyCharsLe xs zs = true := by
  intro xs
  induction xs with
  | nil => intro ys zs h1 h2; rfl
  | cons a as ih =>
    intro ys zs h1 h2
    cases ys with
    | nil => simp [pyCharsLe] at h1
    | cons b bs =>
      cases zs with
      | nil => simp [pyCharsLe] at h2
      | cons c cs =>
        simp only [pyCharsLe] at h1 h2 ⊢
        by_cases hab : a.toNat = b.toNat
        · rw [if_pos hab] at h1
          by_cases hbc : b.toNat = c.toNat
          · rw [if_pos hbc] at h2
            rw [if_pos (hab.trans hbc)]
            exact ih bs cs h1 h2
          · rw [if_neg hbc] at h2
            have h3 := of_decide_eq_true h2
            rw [if_neg (by omega)]
            exact decide_eq_true (by omega)
        · rw [if_neg hab] at h1
          have h3 := of_decide_eq_true h1
          by_cases hbc : b.toNat = c.toNat
          · rw [if_neg (by omega)]
            exact decide_eq_true (by omega)
          · rw [if_neg hbc] at h2
            have h4 := of_decide_eq_true h2
            rw [if_neg (by omega)]
            exact decide_eq_true (by omega)

/-- Lexicographic comparison is total. -/
theorem pyCharsLe_total : ∀ (xs ys : List Char),
    pyCharsLe xs ys = true ∨ pyCharsLe ys xs = true := by
  intro xs
  induction xs with
  | nil => intro ys; exact Or.inl rfl
  | cons a as ih =>
    intro ys
    cases ys with
    | nil => exact Or.inr rfl
    | cons b bs =>
      simp only [pyCharsLe]
      by_cases hab : a.toNat = b.toNat
      · rw [if_pos hab, if_pos hab.symm]
        exact ih bs
      · rw [if_neg hab, if_neg fun hx => hab hx.symm]
        rcases Nat.lt_or_ge a.toNat b.toNat with h | h
        · exact Or.inl (decide_eq_true h)
        · exact Or.inr (decide_eq_true (by omega))

/-- String comparison is transitive. -/
theorem pyStrLe_trans (s t u : String) (h1 : pyStrLe s t = true)
    (h2 : pyStrLe t u = true) : pyStrLe s u = true :=
  pyCharsLe_trans s.data t.data u.data h1 h2

/-- String comparison is total. -/
theorem pyStrLe_total (s t : String) : pyStrLe s t = true ∨ pyStrLe t s = true :=
  pyCharsLe_total s.data t.data

/-- Inserting is a permutation of consing. -/
theorem pyInsert_perm (le : α → α → Bool) (a : α) (l : List α) :
    List.Perm (pyInsert le a l) (a :: l) := by
  induction l with
  | nil => exact List.Perm.refl _
  | cons b bs ih =>
    unfold pyInsert
    split
    · exact List.Perm.refl _
    · exact (List.Perm.cons b ih).trans (List.Perm.swap a b bs)

/-- `pySort` permutes its input. -/
theorem pySort_perm (le : α → α → Bool) (l : List α) :
    List.Perm (pySort le l) l := by
  induction l with
  | nil => exact List.Perm.refl _
  | cons b bs ih =>
    exact (pyInsert_perm le b (pySort le bs)).trans (List.Perm.cons b ih)

/-- Inserting into a list sorted for a transitive, total boolean relation
keeps it sorted. -/
theorem pairwise_pyInsert (le : α → α → Bool)
    (htrans : ∀ a b c, le a b = true → le b c = true → le a c = true)
    (htotal : ∀ a b, le a b = true ∨ le b a = true) (a : α) (l : List α)
    (h : List.Pairwise (fun x y => le x y = true) l) :
    List.Pairwise (fun x y => le x y = true) (pyInsert le a l) := by
  induction l with
  | nil => simp [pyInsert]
  | cons b bs ih =>
    rcases List.pairwise_cons.mp h with ⟨hb, hbs⟩
    unfold pyInsert
    split
    · rename_i hab
      refine List.pairwise_cons.mpr ⟨?_, h⟩
      intro x hx
      rcases List.mem_cons.mp hx with hxb | hxbs
      · exact hxb ▸ hab
      · exact htrans a b x hab (hb x hxbs)
    · rename_i hab
      have hba : le b a = true := by
        rcases htotal a b with hx | hx
        · exact absurd hx hab
        · exact hx
      refine List.pairwise_cons.mpr ⟨?_, ih hbs⟩
      intro x hx
      rcases List.mem_cons.mp ((pyInsert_perm le a bs).mem_iff.mp hx) with hxa | hxbs
      · exact hxa ▸ hba
      · exact hb x hxbs

/-- `pySort` sorts, for a transitive, total boolean relation. -/
theorem pairwise_pySort (le : α → α → Bool)
    (htrans : ∀ a b c, le a b = true → le b c = true → le a c = true)
    (htotal : ∀ a b, le a b = true ∨ le b a = true) (l : List α) :
    List.Pairwise (fun x y => le x y = true) (pySort le l) := by
  induction l with
  | nil => simp [pySort]
  | cons b bs ih => exact pairwise_pyInsert le htrans htotal b (pySort le bs) ih

/-! ### The claims -/

/-- C1, counterexample: the claim says only an API-key variable and a
vault-path variable are copied from the environment, and no other
environment variable affects the resulting `Config`; but two environments
that agree on `OPENAI_API_KEY` and `OBSIDIAN_VAULT_PATH` while differing on
`MODEL_TYPE` produce different configurations, because `_load_from_env`
also copies `MODEL_TYPE` (and `MODEL_NAME`). -/
theorem c1_counterexample :
    envModelType "OPENAI_API_KEY" = envNone "OPENAI_API_KEY"
    ∧ envModelType "OBSIDIAN_VAULT_PATH" = envNone "OBSIDIAN_VAULT_PATH"
    ∧ loadFromEnv envModelType {} ≠ loadFromEnv envNone {}
    ∧ (loadFromEnv envModelType {}).model.type = "ollama"
    ∧ (loadFromEnv envNone {}).model.type = "openai" := by
  refine ⟨rfl, rfl, ?_, by decide, by decide⟩
  intro h
  have := congrArg (fun c => c.model.type) h
  simp only [loadFromEnv, envTruthy, envModelType, envNone] at this
  exact absurd this (by decide)

/-- C1 (amended): `Config._load_from_env` copies exactly four environment
variables — `OPENAI_API_KEY` into the API key, `OBSIDIAN_VAULT_PATH` into
the vault path, `MODEL_TYPE` into the model type and `MODEL_NAME` into the
model name — and no environment variable other than those four affects the
resulting `Config`. -/
theorem c1_env_vars (env env' : Env) (c : Config)
    (h1 : env "OPENAI_API_KEY" = env' "OPENAI_API_KEY")
    (h2 : env "OBSIDIAN_VAULT_PATH" = env' "OBSIDIAN_VAULT_PATH")
    (h3 : env "MODEL_TYPE" = env' "MODEL_TYPE")
    (h4 : env "MODEL_NAME" = env' "MODEL_NAME") :
    loadFromEnv env c = loadFromEnv env' c
    ∧ (loadFromEnv env c).model.apiKey =
        (match envTruthy env "OPENAI_API_KEY" with
          | some v => some v
          | none => c.model.apiKey)
    ∧ (loadFromEnv env c).vault.path =
        (match envTruthy env "OBSIDIAN_VAULT_PATH" with
          | some v => v
          | none => c.vault.path)
    ∧ (loadFromEnv env c).model.type =
        (match envTruthy env "MODEL_TYPE" with
          | some v => v
          | none => c.model.type)
    ∧ (loadFromEnv env c).model.name =
        (match envTruthy env "MODEL_NAME" with
          | some v => v
          | none => c.model.name)
    ∧ (loadFromEnv env c).agent = c.agent := by
  have e1 : envTruthy env "OPENAI_API_KEY" = envTruthy env' "OPENAI_API_KEY" := by
    unfold envTruthy; rw [h1]
  have e2 : envTruthy env "OBSIDIAN_VAULT_PATH" = envTruthy env' "OBSIDIAN_VAULT_PATH" := by
    unfold envTruthy; rw [h2]
  have e3 : envTruthy env "MODEL_TYPE" = envTruthy env' "MODEL_TYPE" := by
    unfold envTruthy; rw [h3]
  have e4 : envTruthy env "MODEL_NAME" = envTruthy env' "MODEL_NAME" := by
    unfold envTruthy; rw [h4]
  constructor
  · unfold loadFromEnv
    rw [e1, e2, e3, e4]
  refine ⟨?_, ?_, ?_, ?_, ?_⟩ <;>
    · unfold loadFromEnv
      rw [e1, e2, e3, e4]
      rcases hA : envTruthy env' "OPENAI_API_KEY" with _ | vA <;>
        rcases hB : envTruthy env' "OBSIDIAN_VAULT_PATH" with _ | vB <;>
          rcases hC : envTruthy env' "MODEL_TYPE" with _ | vC <;>
            rcases hD : envTruthy env' "MODEL_NAME" with _ | vD <;>
              simp [hA, hB, hC, hD]

/-- C1 witness: the amended theorem applied to two concrete environments
that agree on the four variables (one of them also sets `HOME`, which has
no effect). -/
theorem c1_env_vars_witness :
    loadFromEnv envModelType ({} : Config) = loadFromEnv envModelTypeHome ({} : Config)
    ∧ (loadFromEnv envModelType ({} : Config)).agent = ({} : Config).agent :=
  ⟨(c1_env_vars envModelType envModelTypeHome {} rfl rfl rfl rfl).1,
   (c1_env_vars envModelType envModelTypeHome {} rfl rfl rfl rfl).2.2.2.2.2⟩

/-- C2: for every vault state, clock value and day count,
`read_recent_notes` returns exactly those documents of `read_all_notes`
whose modification timestamp is strictly later than now minus `days` days
(each occurrence counted), and in the same relative order (the result is a
sublist of `read_all_notes`). -/
theorem c2_recent_filter (v : Vault) (now days : Int) :
    List.Sublist (readRecentNotes v now days) (readAllNotes v)
    ∧ ∀ d : RDoc, (readRecentNotes v now days).count d =
        if now - days * secondsPerDay < d.modifiedTime
        then (readAllNotes v).count d else 0 := by
  constructor
  · exact List.filter_sublist (readAllNotes v)
  · intro d
    by_cases h : now - days * secondsPerDay < d.modifiedTime
    · rw [if_pos h]
      exact List.count_filter (by simpa using h)
    · rw [if_neg h]
      refine List.count_eq_zero.mpr ?_
      intro hmem
      exact h (by simpa using (List.mem_filter.mp hmem).2)

/-- C5: `_search_notes` forwards its query unchanged to the vector store's
similarity search, with `k` equal to the configured
`search_results_limit`, and makes exactly that one call. -/
theorem c5_query_forwarding (cfg : Config) (vs : VSOracle) (q : String) :
    (searchNotes (mkTools cfg) vs q).2 = [(q, cfg.agent.searchResultsLimit)] := by
  unfold searchNotes mkTools
  cases vs q cfg.agent.searchResultsLimit
  · rfl
  · dsimp only
    split <;> rfl

/-- C6: the CLI registers the subcommands `chat`, `validate` and `ask`, and
the REPL recognizes each of `/help`, `/recent`, `/stats`, `/memory`,
`/reset` and `/exit`, dispatching it to its branch rather than to the
unknown-command branch or to the agent as a verbatim question (`/recent`
is dispatched to its branch, which rewrites it into the fixed
journal-entries question before handing it to the agent). -/
theorem c6_cli_dispatch :
    replDispatch "/help" = ReplAction.help
    ∧ replDispatch "/recent" = ReplAction.ask (recentQuery 7)
    ∧ replDispatch "/stats" = ReplAction.stats
    ∧ replDispatch "/memory" = ReplAction.memory
    ∧ replDispatch "/reset" = ReplAction.reset
    ∧ replDispatch "/exit" = ReplAction.exit
    ∧ "chat" ∈ cliSubcommands
    ∧ "validate" ∈ cliSubcommands
    ∧ "ask" ∈ cliSubcommands := by
  decide

/-- C7: every document produced by `read_all_notes` (and hence by
`read_recent_notes`) has page content that is non-empty after stripping
whitespace; blank files are skipped during ingestion. -/
theorem c7_nonempty_documents (v : Vault) (now days : Int) (d : RDoc) :
    (d ∈ readAllNotes v → pyStrip d.pageContent ≠ "")
    ∧ (d ∈ readRecentNotes v now days → pyStrip d.pageContent ≠ "") := by
  have hall : d ∈ readAllNotes v → pyStrip d.pageContent ≠ "" := by
    intro hd
    obtain ⟨f, _, hmatch⟩ := List.mem_filterMap.mp hd
    revert hmatch
    cases f.readResult with
    | error e => simp
    | ok content =>
      by_cases hc : pyStrip content = ""
      · simp [hc]
      · simp only [hc, if_false]
        intro hd2
        injection hd2 with hd3
        subst hd3
        exact hc
  exact ⟨hall, fun hd => hall ((List.mem_filter.mp hd).1)⟩

/-- C7 witness: a one-file vault whose document is produced and has
non-blank content. -/
theorem c7_nonempty_documents_witness :
    rdocC ∈ readAllNotes vaultC ∧ pyStrip rdocC.pageContent ≠ "" :=
  ⟨by decide, (c7_nonempty_documents vaultC 0 0 rdocC).1 (by decide)⟩

/-- C8: when the `days` string does not parse as an integer,
`_get_recent_entries` behaves exactly as it does on `"7"`: the day count
silently defaults to 7 (and `"7"` itself parses to 7). -/
theorem c8_invalid_days_default (rd : ReaderOracle) (s : String)
    (h : pyInt s = none) :
    getRecentEntries rd s = getRecentEntries rd "7" ∧ pyInt "7" = some 7 := by
  have h7 : pyInt "7" = some 7 := by decide
  refine ⟨?_, h7⟩
  unfold getRecentEntries
  rw [h, h7]
  rfl

/-- C8 witness: the input `"invalid"` does not parse and yields the same
behavior as `"7"` against a concrete reader. -/
theorem c8_invalid_days_default_witness :
    pyInt "invalid" = none
    ∧ getRecentEntries rdErr "invalid" = getRecentEntries rdErr "7" :=
  ⟨by decide, (c8_invalid_days_default rdErr "invalid" (by decide)).1⟩

/-- C10: whenever `Config.validate` returns `True`, it has rewritten
`self.vault.path` to the expanded, resolved form of the configured path
and has left the model configuration, the agent configuration and the
other vault fields unchanged. -/
theorem c10_validate_rewrites_path (fs : FS) (c c' : Config) (b : Bool)
    (h : validate fs c = Except.ok (c', b)) :
    c'.vault.path = fs.normalize c.vault.path
    ∧ c'.model = c.model
    ∧ c'.agent = c.agent
    ∧ c'.vault.loadDays = c.vault.loadDays
    ∧ c'.vault.chunkSize = c.vault.chunkSize
    ∧ c'.vault.chunkOverlap = c.vault.chunkOverlap
    ∧ b = true := by
  unfold validate at h
  dsimp only at h
  split_ifs at h
  all_goals
    first
      | exact Except.noConfusion h
      | (rw [Except.ok.injEq, Prod.mk.injEq] at h
         obtain ⟨h4, h5⟩ := h
         rw [← h4, ← h5]
         simp)

/-- C10 witness: the theorem applied to a concrete filesystem and
configuration, whose validation succeeds and rewrites the path. -/
theorem c10_validate_rewrites_path_witness :
    validate fsC cfgC = Except.ok (cfgC2, true)
    ∧ cfgC2.vault.path = fsC.normalize cfgC.vault.path
    ∧ cfgC2.model = cfgC.model
    ∧ cfgC2.agent = cfgC.agent :=
  ⟨by rfl,
   (c10_validate_rewrites_path fsC cfgC cfgC2 true (by rfl)).1,
   (c10_validate_rewrites_path fsC cfgC cfgC2 true (by rfl)).2.1,
   (c10_validate_rewrites_path fsC cfgC cfgC2 true (by rfl)).2.2.1⟩

/-- C3: for each tool operation and for `SableyeAgent.chat`, a raised
exception in the underlying library call is not propagated and not
retried: exactly one library call is made, and when it fails with `e` the
operation returns its human-readable error string ending in the
stringified exception. -/
theorem c3_error_policy (t : AgentTools) (vs : VSOracle) (rd : ReaderOracle)
    (inv : Invoke) (q days e1 e2 e3 e4 e5 msg : String) (hist : List ChatMsg) :
    (vs q t.searchLimit = Except.error e1 →
      (searchNotes t vs q).1 = "Error searching notes: " ++ e1)
    ∧ (rd ((pyInt days).getD 7) = Except.error e2 →
      (getRecentEntries rd days).1 = "Error retrieving recent entries: " ++ e2)
    ∧ (vs moodQuery 10 = Except.error e3 →
      (analyzeMoodPatterns vs q).1 = "Error analyzing mood patterns: " ++ e3)
    ∧ (vs goalQuery 8 = Except.error e4 →
      (findGoals vs q).1 = "Error finding goals: " ++ e4)
    ∧ (inv (pyTakeLast 10 (hist ++ [{ role := "user", content := msg }])) = Except.error e5 →
      (chat inv hist msg).output = "I encountered an error: " ++ e5)
    ∧ (searchNotes t vs q).2.length = 1
    ∧ (getRecentEntries rd days).2.length = 1
    ∧ (analyzeMoodPatterns vs q).2.length = 1
    ∧ (findGoals vs q).2.length = 1
    ∧ (chat inv hist msg).calls.length = 1 := by
  refine ⟨?_, ?_, ?_, ?_, ?_, ?_, ?_, ?_, ?_, ?_⟩
  · intro h; simp [searchNotes, h]
  · intro h; simp [getRecentEntries, h]
  · intro h; simp [analyzeMoodPatterns, h]
  · intro h; simp [findGoals, h]
  · intro h; simp [chat, h]
  · unfold searchNotes
    cases vs q t.searchLimit
    · rfl
    · dsimp only
      split <;> rfl
  · unfold getRecentEntries
    dsimp only
    cases rd ((pyInt days).getD 7)
    · rfl
    · dsimp only
      split <;> rfl
  · unfold analyzeMoodPatterns
    cases vs moodQuery 10
    · rfl
    · dsimp only
      split <;> rfl
  · unfold findGoals
    cases vs goalQuery 8
    · rfl
    · dsimp only
      split <;> rfl
  · unfold chat
    dsimp only
    cases inv (pyTakeLast 10 (hist ++ [{ role := "user", content := msg }])) <;> rfl

/-- C3 witness: the theorem applied to always-raising oracles; each
operation returns its error string instead of propagating. -/
theorem c3_error_policy_witness :
    (searchNotes { searchLimit := 5 } vsErr "q").1 = "Error searching notes: boom"
    ∧ (getRecentEntries rdErr "7").1 = "Error retrieving recent entries: readfail"
    ∧ (analyzeMoodPatterns vsErr "").1 = "Error analyzing mood patterns: boom"
    ∧ (findGoals vsErr "").1 = "Error finding goals: boom"
    ∧ (chat invErr [] "hi").output = "I encountered an error: invokefail" := by
  obtain ⟨p1, p2, p3, p4, p5, _⟩ :=
    c3_error_policy { searchLimit := 5 } vsErr rdErr invErr
      "q" "7" "boom" "readfail" "boom" "boom" "invokefail" "hi" []
  exact ⟨p1 rfl, p2 rfl, p3 rfl, p4 rfl, p5 rfl⟩

/-- C4, counterexample: the claim says the successful result of each public
tool method is a direct rendering of the single library call's result with
no re-sorting and no truncation; but `_get_recent_entries` renders the
returned documents re-sorted (newest first, not in the returned order) and
truncates content: for a returned document of 501 characters the full
content does not appear in the output (only 500 of its characters do). -/
theorem c4_counterexample :
    rdPairC 7 = Except.ok [docAC, docBC]
    ∧ (getRecentEntries rdPairC "7").1 ≠
        String.intercalate "\n" ([docAC, docBC].map recentEntry)
    ∧ rdLongC 7 = Except.ok [docLongC]
    ∧ (getRecentEntries rdLongC "7").1.data.count 'a' = 500
    ∧ docLongC.pageContent.data.count 'a' = 501 :=
  ⟨rfl, by decide, rfl, by decide, by decide⟩

/-- C4 (amended): each public tool method wraps its library call in
`try/except` that stringifies the exception, but the successful result is
not always a direct rendering: `_get_recent_entries` parses its input as
an integer, sorts the returned documents by modification time descending,
keeps only the first 10, and truncates each content to 500 characters
with an ellipsis (the `energy_tracker` skill similarly deduplicates,
re-sorts and truncates before its LLM call). -/
theorem c4_processing (rd : ReaderOracle) (days : String) (docs : List Doc)
    (h : rd ((pyInt days).getD 7) = Except.ok docs) (hne : docs ≠ []) :
    (getRecentEntries rd days).1 =
      String.intercalate "\n" (((pySortDesc docs).take 10).map recentEntry) := by
  unfold getRecentEntries
  dsimp only
  rw [h]
  dsimp only
  rw [if_neg hne]

/-- C4 witness: the amended theorem applied to a concrete reader returning
two documents oldest-first. -/
theorem c4_processing_witness :
    (getRecentEntries rdPairC "7").1 =
      String.intercalate "\n" (((pySortDesc [docAC, docBC]).take 10).map recentEntry) :=
  c4_processing rdPairC "7" [docAC, docBC] rfl (by decide)

/-- C9: on a non-empty successful result, `_get_recent_entries` renders at
most the 10 documents greatest under the modified-time key, in descending
key order (every rendered document's key is at least every dropped
document's key), the rendered documents all come from the returned list,
and each rendered content is cut at 500 characters with an ellipsis
exactly when the original is longer. -/
theorem c9_recent_rendering (rd : ReaderOracle) (days : String) (docs : List Doc)
    (h : rd ((pyInt days).getD 7) = Except.ok docs) (hne : docs ≠ []) :
    ((pySortDesc docs).take 10).length ≤ 10
    ∧ List.Pairwise (fun a b => pyStrLe (docKey b) (docKey a) = true)
        ((pySortDesc docs).take 10)
    ∧ (∀ a ∈ (pySortDesc docs).take 10, ∀ b ∈ (pySortDesc docs).drop 10,
        pyStrLe (docKey b) (docKey a) = true)
    ∧ List.Subperm ((pySortDesc docs).take 10) docs
    ∧ (getRecentEntries rd days).1 =
        String.intercalate "\n" (((pySortDesc docs).take 10).map recentEntry)
    ∧ ∀ d : Doc, recentEntry d =
        "--- " ++ d.fileName.getD "Unknown" ++ " (Modified: "
          ++ pyTakeStr 10 (d.modifiedTime.getD "Unknown") ++ ") ---\n"
          ++ pyTakeStr 500 d.pageContent
          ++ (if 500 < d.pageContent.length then "..." else "") ++ "\n" := by
  have hsorted : List.Pairwise (fun a b => pyStrLe (docKey b) (docKey a) = true)
      (pySortDesc docs) := by
    apply pairwise_pySort
    · intro a b c hab hbc
      exact pyStrLe_trans (docKey c) (docKey b) (docKey a) hbc hab
    · intro a b
      exact (pyStrLe_total (docKey b) (docKey a)).imp id id
  have happ : List.Pairwise (fun a b => pyStrLe (docKey b) (docKey a) = true)
      ((pySortDesc docs).take 10 ++ (pySortDesc docs).drop 10) := by
    rw [List.take_append_drop]
    exact hsorted
  refine ⟨?_, ?_, ?_, ?_, ?_, ?_⟩
  · exact List.length_take_le 10 _
  · exact hsorted.sublist (List.take_sublist 10 _)
  · exact (List.pairwise_append.mp happ).2.2
  · exact ((List.take_sublist 10 _).subperm).trans (pySort_perm _ docs).subperm
  · unfold getRecentEntries
    dsimp only
    rw [h]
    dsimp only
    rw [if_neg hne]
  · intro d
    rfl

/-- C9 witness: the theorem applied to a concrete reader returning two
documents. -/
theorem c9_recent_rendering_witness :
    ((pySortDesc [docAC, docBC]).take 10).length ≤ 10
    ∧ List.Subperm ((pySortDesc [docAC, docBC]).take 10) [docAC, docBC]
    ∧ (getRecentEntries rdPairC "7").1 =
        String.intercalate "\n" (((pySortDesc [docAC, docBC]).take 10).map recentEntry) := by
  obtain ⟨p1, _, _, p4, p5, _⟩ := c9_recent_rendering rdPairC "7" [docAC, docBC] rfl (by decide)
  exact ⟨p1, p4, p5⟩
